import Mathlib

/-!
Verification of the OpenRazer troubleshooter module
(`pylib/troubleshoot/openrazer.py`) against its natural-language
specification.

The Python module is shallowly embedded: every OS interaction
(filesystem existence, file reads, subprocess output, environment
variables, the HTTP request) is a field of an explicit `Env` record,
and each check function is translated into a Lean function over `Env`.
Python exceptions are modelled with `Except String`; Python `None` used
as a "missing result" is modelled with `Option`.

String literals from the source are transcribed without apostrophe
characters.  Python `str.split(sep)` with a one-character separator,
`str.strip()`, `str.replace`, `str.find(sub) != -1`, `int(...)` and
`os.path.join` are modelled by the `py*` helpers below, which operate
structurally on the character list of the string.
-/

namespace Polychromatic

/-- Decimal value of a list of digit characters, as computed by Python
`int` on a digit string (most-significant first). -/
def digitsToNat (l : List Char) : Nat :=
  l.foldl (fun a c => 10 * a + (c.toNat - 48)) 0

/-- Python `str.strip()`: remove leading and trailing whitespace. -/
def pyStripList (l : List Char) : List Char :=
  ((l.dropWhile Char.isWhitespace).reverse.dropWhile Char.isWhitespace).reverse

/-- Python `str.strip()` on a `String`. -/
def pyStripStr (s : String) : String :=
  String.mk (pyStripList s.data)

/-- The list is nonempty and consists only of decimal digits. -/
def isDigitList (l : List Char) : Bool :=
  !l.isEmpty && l.all Char.isDigit

/-- `isDigitList` on a `String`. -/
def isDigitStr (s : String) : Bool :=
  isDigitList s.data

/-- Python `int(s)` on a string: strips whitespace, accepts an optional
sign followed by decimal digits, raises `ValueError` otherwise.
(Underscore digit separators, accepted by Python, are not modelled.) -/
def pyParseInt (s : String) : Except String Int :=
  let t := pyStripList s.data
  if isDigitList t then Except.ok (digitsToNat t : Int)
  else
    match t with
    | '-' :: rest =>
      if isDigitList rest then Except.ok (-(digitsToNat rest : Int))
      else Except.error ("ValueError: invalid literal for int: " ++ s)
    | '+' :: rest =>
      if isDigitList rest then Except.ok (digitsToNat rest : Int)
      else Except.error ("ValueError: invalid literal for int: " ++ s)
    | _ => Except.error ("ValueError: invalid literal for int: " ++ s)

/-- Python `str.split(sep)` with a one-character separator, on character
lists.  `split` of the empty string is `[""]`, and every occurrence of
the separator starts a new field. -/
def pySplitList (sep : Char) : List Char → List (List Char)
  | [] => [[]]
  | c :: rest =>
    let r := pySplitList sep rest
    if c = sep then [] :: r
    else
      match r with
      | [] => [[c]]
      | h :: t => (c :: h) :: t

/-- Python `s.split(sep)` with a one-character separator. -/
def pySplit (s : String) (sep : Char) : List String :=
  (pySplitList sep s.data).map String.mk

/-- Python `hay.find(needle) != -1`: does `needle` occur as a substring
of `hay`? -/
def pyFindContains (hay needle : String) : Bool :=
  hay.data.tails.any (fun t => needle.data.isPrefixOf t)

/-- Fuel-indexed worker for `pyReplace`; the fuel starts at the length
of the subject list, which suffices because each step consumes at least
one character of the subject. -/
def pyReplaceAux (pat rep : List Char) : Nat → List Char → List Char
  | _, [] => []
  | 0, l => l
  | fuel + 1, c :: rest =>
    if !pat.isEmpty && pat.isPrefixOf (c :: rest) then
      rep ++ pyReplaceAux pat rep fuel ((c :: rest).drop pat.length)
    else
      c :: pyReplaceAux pat rep fuel rest

/-- Python `s.replace(pat, rep)`: replace every occurrence of `pat`
(nonempty in all uses here) by `rep`, scanning left to right. -/
def pyReplace (s pat rep : String) : String :=
  String.mk (pyReplaceAux pat.data rep.data s.data.length s.data)

/-- Python `os.path.join(a, b)` for the relative second components used
in this module: inserts a `/` unless `a` already ends with one. -/
def pyJoin (a b : String) : String :=
  if a.data.getLast? = some '/' then a ++ b else a ++ "/" ++ b

/-- Python list indexing `l[i]`, raising `IndexError` when out of
range. -/
def pyListGet (l : List String) (i : Nat) : Except String String :=
  match l.get? i with
  | some x => Except.ok x
  | none => Except.error "IndexError: list index out of range"

/-- Python exception propagation: evaluate `x`; a raised exception
propagates past the rest of the statement block `f`. -/
def ebind {α β : Type} (x : Except String α) (f : α → Except String β) : Except String β :=
  match x with
  | Except.error e => Except.error e
  | Except.ok v => f v

instance {ε α : Type} [DecidableEq ε] [DecidableEq α] : DecidableEq (Except ε α) :=
  fun x y =>
    match x, y with
    | Except.ok a, Except.ok b =>
      if h : a = b then isTrue (by rw [h])
      else isFalse (fun hc => h (by injection hc))
    | Except.error e, Except.error f =>
      if h : e = f then isTrue (by rw [h])
      else isFalse (fun hc => h (by injection hc))
    | Except.ok _, Except.error _ => isFalse (fun hc => Except.noConfusion hc)
    | Except.error _, Except.ok _ => isFalse (fun hc => Except.noConfusion hc)

/-- A decimal literal `num / 10 ^ exp`: the exact value denoted by a
`"minor.patch"` digit string before Python `float` rounds it to
binary64. -/
structure DecVal where
  num : Nat
  exp : Nat
deriving DecidableEq, Repr

/-- Fuel-bounded floor of the base-2 logarithm: `log2Fuel fuel n` is
`min (Nat.log2 n) fuel`, so it equals `⌊log₂ n⌋` whenever
`fuel ≥ ⌊log₂ n⌋` (in particular whenever `fuel` is at least the bit
length of `n`).  The fuel keeps the recursion structural and small so
that concrete values reduce in the kernel. -/
def log2Fuel : Nat → Nat → Nat
  | 0, _ => 0
  | fuel + 1, n => if 2 ≤ n then log2Fuel fuel (n / 2) + 1 else 0

/-- `⌊log₂ (a / b)⌋` for positive naturals `a`, `b`, exact whenever
`fuel` is at least the bit length of both:  from
`2 ^ la ≤ a < 2 ^ (la + 1)` and `2 ^ lb ≤ b < 2 ^ (lb + 1)` the floor
is `la - lb` or `la - lb - 1`, decided by whether `a / b ≥ 2 ^ (la - lb)`. -/
def intLog2Frac (fuel a b : Nat) : Int :=
  let la := log2Fuel fuel a
  let lb := log2Fuel fuel b
  if b * 2 ^ la ≤ a * 2 ^ lb then (la : Int) - lb else (la : Int) - lb - 1

/-- Round `N / D` (with `D > 0`) to the nearest integer, ties to even —
the IEEE 754 default rounding. -/
def roundHalfEven (N D : Nat) : Nat :=
  let n := N / D
  let r := N % D
  if 2 * r < D then n
  else if D < 2 * r then n + 1
  else if n % 2 = 0 then n else n + 1

/-- A nonnegative CPython float (IEEE binary64): a finite value
`m * 2 ^ e`, or positive infinity (what `float` returns on a decimal
string beyond the binary64 range). -/
inductive PyFloat where
  | finite : Nat → Int → PyFloat
  | inf : PyFloat
deriving DecidableEq, Repr

/-- Round the nonnegative decimal `num / 10 ^ exp` to binary64:
round-to-nearest, ties to even, at granularity `2 ^ (⌊log₂ q⌋ - 52)`
clamped below at the subnormal quantum `2 ^ (-1074)`, overflowing to
infinity when the rounded value reaches `2 ^ 1024` — that is, when
`m ≥ 2 ^ (1024 - e)`, tested via the bit length of `m` (the rounded
mantissa is below `2 ^ 54`, so a fixed fuel of 64 is exact there).
CPython `float` parses decimal strings with correct rounding, so this
is exactly the value the source compares.  `fuel` must be at least the
bit length of `num` and of `10 ^ exp`; callers derive it from the
digit counts. -/
def float64OfDec (fuel : Nat) (v : DecVal) : PyFloat :=
  if v.num = 0 then PyFloat.finite 0 0
  else
    let a := v.num
    let b := 10 ^ v.exp
    let k := intLog2Frac fuel a b
    let e : Int := max (k - 52) (-1074)
    let m := roundHalfEven (a * 2 ^ Int.toNat (-e)) (b * 2 ^ Int.toNat e)
    if (1024 : Int) - e ≤ (log2Fuel 64 m : Int) then PyFloat.inf
    else PyFloat.finite m e

/-- Python `x > y` on nonnegative floats: infinity exceeds every finite
value but not itself; finite values compare as `m1 * 2 ^ e1 > m2 * 2 ^ e2`,
decided exactly by shifting both onto the smaller exponent. -/
def PyFloat.gtb : PyFloat → PyFloat → Bool
  | PyFloat.inf, PyFloat.inf => false
  | PyFloat.inf, PyFloat.finite _ _ => true
  | PyFloat.finite _ _, PyFloat.inf => false
  | PyFloat.finite m1 e1, PyFloat.finite m2 e2 =>
    m2 * 2 ^ Int.toNat (e2 - min e1 e2) < m1 * 2 ^ Int.toNat (e1 - min e1 e2)

/-- Python `float(ip + "." + fp)` for the dot-free fragments produced by
`split(".")`: succeeds exactly when both fragments are digit strings,
yielding the decimal value rounded to binary64; raises `ValueError`
otherwise.  (The concatenation with `"."` is absorbed into this
two-argument model; the fragments, coming from `split(".")`, never
contain a dot.  The fuel `4 * (|ip| + |fp|) + 8` exceeds the bit length
of both `num < 10 ^ (|ip| + |fp|)` and `10 ^ |fp|`, since `10 < 2 ^ 4`.) -/
def pyFloatCat (ip fp : String) : Except String PyFloat :=
  if isDigitStr ip && isDigitStr fp then
    Except.ok (float64OfDec (4 * (ip.length + fp.length) + 8)
      ⟨digitsToNat ip.data * 10 ^ fp.length + digitsToNat fp.data, fp.length⟩)
  else
    Except.error ("ValueError: could not convert string to float: " ++ ip ++ "." ++ fp)

/-- A check result record: `{"test_name": ..., "suggestions": ...,
"passed": ...}`.  `passed` is the tri-state flag: `some true`,
`some false`, or `none` for Python `None` (unknown). -/
structure CheckResult where
  test_name : String
  suggestions : List String
  passed : Option Bool
deriving DecidableEq, Repr

/-- The environment: every fact the module reads from the operating
system, the filesystem, subprocesses and the network, plus the
module-load-time state (`PYTHON_LIB_PRESENT`, `rclient.__version__`). -/
structure Env where
  /-- `os.uname().sysname` -/
  sysname : String
  /-- `os.uname().release` -/
  release : String
  /-- `os.uname().machine` -/
  machine : String
  /-- `shutil.which("openrazer-daemon")` -/
  whichDaemon : Option String
  /-- `os.environ["XDG_RUNTIME_DIR"]` (`none` = `KeyError`) -/
  xdgRuntimeDir : Option String
  /-- `os.getuid()` -/
  uid : Nat
  /-- `os.path.exists` -/
  pathExists : String → Bool
  /-- `open(p).readline()` for the given path -/
  readFirstLine : String → String
  /-- `open(p).readlines()` for the given path -/
  readLines : String → List String
  /-- `PYTHON_LIB_PRESENT`: did `from openrazer import client` succeed? -/
  pylibPresent : Bool
  /-- `rclient.__version__` (meaningful only when the library is present) -/
  rclientVersion : String
  /-- return code of `modprobe -n razerkbd` -/
  modprobeCode : Int
  /-- decoded stdout of `lsmod` -/
  lsmodOutput : String
  /-- `glob.glob("/sys/firmware/efi/efivars/SecureBoot*")` -/
  secureBootGlob : List String
  /-- decoded stdout of `od --address-radix=n --format=u1 <file>` -/
  odOutput : String → String
  /-- decoded stdout of `groups` -/
  groupsOutput : String
  /-- `os.path.expanduser("~")` -/
  home : String
  /-- `requests.get(...)`: `none` = exception raised (caught and
  logged), `some (status_code, text)` = a response -/
  requestResult : Option (Nat × String)

/-- The value returned by `troubleshoot`: Python `None` (non-Linux
host), an exception string, or the list of results.  A list entry is
`none` when Python `None` was appended to the list. -/
inductive Report where
  | notApplicable : Report
  | error : String → Report
  | results : List (Option CheckResult) → Report
deriving DecidableEq, Repr

/-- Modelled from the spec: `common.get_exception_as_string` lives in a
module that is not under `src/` (only its caller is); the spec describes
it as thin exception-to-string formatting, so it is modelled as
returning the exception message itself. -/
def get_exception_as_string (e : String) : String := e

/-- `_is_daemon_installed`. -/
def _is_daemon_installed (env : Env) : CheckResult :=
  { test_name := "Daemon is installed",
    suggestions := ["Install the openrazer-meta package for your distribution."],
    passed := some env.whichDaemon.isSome }

/-- The daemon PID file path: `$XDG_RUNTIME_DIR/openrazer-daemon.pid`,
falling back to `/run/user/<uid>/openrazer-daemon.pid` on `KeyError`. -/
def daemonPidFile (env : Env) : String :=
  match env.xdgRuntimeDir with
  | some dir => pyJoin dir "openrazer-daemon.pid"
  | none => pyJoin (pyJoin "/run/user/" (toString env.uid)) "openrazer-daemon.pid"

/-- `_is_daemon_running`.  Reading a PID file whose first line is not an
integer raises (`int(f.readline())`). -/
def _is_daemon_running (env : Env) : Except String CheckResult :=
  let daemon_pid_file := daemonPidFile env
  let daemon_running : Except String Bool :=
    if env.pathExists daemon_pid_file then
      ebind (pyParseInt (env.readFirstLine daemon_pid_file)) fun daemon_pid =>
        Except.ok (env.pathExists ("/proc/" ++ toString daemon_pid))
    else
      Except.ok false
  ebind daemon_running fun b =>
    Except.ok
      { test_name := "Daemon is running",
        suggestions :=
          ["Start the daemon from the terminal. Run this command and look for errors:",
           "$ openrazer-daemon -Fv"],
        passed := some b }

/-- `_is_pylib_installed`. -/
def _is_pylib_installed (env : Env) : CheckResult :=
  { test_name := "Python library is installed",
    suggestions :=
      ["Install the python3-openrazer package for your distribution.",
       "Check the PYTHONPATH environment variable is correct."],
    passed := some env.pylibPresent }

/-- The `NameError` raised at line 107 of the source when
`dkms_version` is referenced without having been assigned (it is only
assigned under `if PYTHON_LIB_PRESENT:`). -/
def dkmsNameError : String := "NameError: name dkms_version is not defined"

/-- `_run_dkms_checks`.  The first two `passed` values are `None`
unless the client library is present; constructing the second
sub-result evaluates `dkms_version`, which raises `NameError` when the
library is absent. -/
def _run_dkms_checks (env : Env) : Except String (List CheckResult) :=
  let dkms_installed_src : Option Bool :=
    if env.pylibPresent then
      some (env.pathExists ("/var/lib/dkms/openrazer-driver/" ++ env.rclientVersion))
    else none
  let dkms_installed_built : Option Bool :=
    if env.pylibPresent then
      some (env.pathExists
        ("/var/lib/dkms/openrazer-driver/kernel-" ++ env.release ++ "-" ++ env.machine))
    else none
  let sub1 : CheckResult :=
    { test_name := "DKMS sources are installed",
      suggestions := ["Install the openrazer-driver-dkms package for your distribution."],
      passed := dkms_installed_src }
  ebind (if env.pylibPresent then Except.ok env.rclientVersion
         else Except.error dkmsNameError : Except String String) fun dkms_version =>
    let sub2 : CheckResult :=
      { test_name := "DKMS module has been built for this kernel version",
        suggestions :=
          ["Ensure you have the correct Linux kernel headers package installed for your distribution.",
           "Your distro package system might not have rebuilt the DKMS module (this can happen with kernel or OpenRazer updates). Try running:",
           pyReplace "$ sudo dkms install -m openrazer-driver/x.x.x" "x.x.x" dkms_version],
        passed := dkms_installed_built }
    let sub3 : CheckResult :=
      { test_name := "DKMS module can be probed",
        suggestions := ["For full error details, run:", "$ sudo modprobe razerkbd"],
        passed := some (env.modprobeCode == 0) }
    let sub4 : CheckResult :=
      { test_name := "DKMS module is currently loaded",
        suggestions := ["For full error details, run:", "$ sudo modprobe razerkbd"],
        passed := some (pyFindContains env.lsmodOutput "razer") }
    Except.ok [sub1, sub2, sub3, sub4]

/-- The `test_name` of the secure-boot check. -/
def secureBootTestName : String := "Check Secure Boot (EFI) status"

/-- The status string decoded from the `od` dump of the first matched
SecureBoot efivars file: the last space-separated token, stripped. -/
def sbStatusString (env : Env) : String :=
  pyStripStr ((pySplit (env.odOutput (env.secureBootGlob.headD "")) ' ').getLastD "")

/-- `_is_secure_boot_enabled`.  When the glob matches, the last byte of
the `od` dump is parsed as an integer (`int(status)` raises on a
malformed dump) and `passed` is whether it is `0`; when the glob
matches nothing, `passed` is `None`. -/
def _is_secure_boot_enabled (env : Env) : Except String CheckResult :=
  let sb_sysfile := env.secureBootGlob
  let sb_reason :=
    "Secure Boot prevents the driver from loading, as OpenRazer kernel modules built by DKMS are usually unsigned."
  if sb_sysfile.length > 0 then
    ebind (pyParseInt (sbStatusString env)) fun status =>
      Except.ok
        { test_name := secureBootTestName,
          suggestions :=
            ["Secure boot is enabled. Turn it off in the system EFI settings or sign the modules yourself.",
             sb_reason],
          passed := some (status == 0) }
  else
    Except.ok
      { test_name := secureBootTestName,
        suggestions :=
          ["Unable to automatically check. If it is enabled, turn it off in the system EFI settings or sign the modules yourself.",
           sb_reason],
        passed := none }

/-- `_is_user_in_plugdev_group`. -/
def _is_user_in_plugdev_group (env : Env) : CheckResult :=
  { test_name := "User account has been added to the plugdev group",
    suggestions :=
      ["Run this command, log out, then log back in to the computer:",
       "$ sudo gpasswd -a $USER plugdev",
       "If you have recently installed, you may need to restart the computer."],
    passed := some (pyFindContains env.groupsOutput "plugdev") }

/-- The OpenRazer daemon log path:
`~/.local/share/openrazer/logs/razer.log`. -/
def razerLogPath (env : Env) : String :=
  pyJoin env.home ".local/share/openrazer/logs/razer.log"

/-- `_is_sysfs_plugdev_permissions_ok`.  When the log file exists, the
check passes iff the permission-error substring is absent from the
joined log; when the file does not exist the function falls off the end
and returns Python `None`. -/
def _is_sysfs_plugdev_permissions_ok (env : Env) : Option CheckResult :=
  let log_path := razerLogPath env
  if env.pathExists log_path then
    let log := env.readLines log_path
    some
      { test_name := "Check OpenRazer log for plugdev permission errors",
        suggestions :=
          ["Restarting (or replugging) usually fixes the problem.",
           "To reset this error, clear the log: " ++ log_path],
        passed := some (!pyFindContains (log.foldl (· ++ ·) "") "Could not access /sys/") }
  else
    none

/-- `_is_version_newer_then(verA, verB)`: split both versions on `"."`;
`is_new` is set if the first components compare greater as integers,
and also (independently of the first comparison) if the
`second.third` components compare greater as decimal numbers. -/
def _is_version_newer_then (verA verB : String) : Except String Bool :=
  let vA := pySplit verA '.'
  let vB := pySplit verB '.'
  let is_new := false
  ebind (pyListGet vA 0) fun a0 =>
  ebind (pyListGet vB 0) fun b0 =>
  ebind (pyParseInt a0) fun ia0 =>
  ebind (pyParseInt b0) fun ib0 =>
  let is_new := if ia0 > ib0 then true else is_new
  ebind (pyListGet vA 1) fun a1 =>
  ebind (pyListGet vA 2) fun a2 =>
  ebind (pyFloatCat a1 a2) fun fA =>
  ebind (pyListGet vB 1) fun b1 =>
  ebind (pyListGet vB 2) fun b2 =>
  ebind (pyFloatCat b1 b2) fun fB =>
  let is_new := if fA.gtb fB then true else is_new
  Except.ok is_new

/-- `_is_openrazer_up_to_date`.  When the library is absent the
function falls off the end and returns Python `None`.  The remote
version is accepted only on HTTP 200 with exactly three dot-separated
components; a request exception is caught and logged, leaving the
remote version unset. -/
def _is_openrazer_up_to_date (env : Env) : Except String (Option CheckResult) :=
  if env.pylibPresent then
    let local_version := env.rclientVersion
    let remote_version : Option String :=
      match env.requestResult with
      | some (status_code, text) =>
        if status_code == 200 && (pySplit (pyStripStr text) '.').length == 3 then
          some (pyStripStr text)
        else none
      | none => none
    match remote_version with
    | some rv =>
      ebind (_is_version_newer_then rv local_version) fun newer =>
        Except.ok (some
          { test_name := "OpenRazer is the latest version",
            suggestions :=
              ["There is a new version of OpenRazer available.",
               "New versions add support for more devices and address device-specific issues.",
               pyReplace "Your version: 0.0.0" "0.0.0" local_version,
               pyReplace "Latest version: 0.0.0" "0.0.0" rv],
            passed := some (!newer) })
    | none =>
      Except.ok (some
        { test_name := "OpenRazer is the latest version",
          suggestions :=
            ["Unable to retrieve this data from the OpenRazer website.",
             "Check the OpenRazer website to confirm your device is listed as supported.",
             "If you are checking the GitHub repository, check the stable branch."],
          passed := none })
  else
    Except.ok none

/-- The EFI-only portion of the runner: on an EFI system the
secure-boot check contributes one entry (or raises); otherwise it
contributes no entry. -/
def secureBootComponent (env : Env) : Except String (List (Option CheckResult)) :=
  if env.pathExists "/sys/firmware/efi" then
    ebind (_is_secure_boot_enabled env) fun r => Except.ok [some r]
  else
    Except.ok []

/-- The body of the `try:` block of `troubleshoot`: run the checks in
order, short-circuiting on the first exception.  The permission-log
check and the up-to-date check append their `Option` result as-is
(Python appends `None` to the list when a check returns `None`). -/
def runChecks (env : Env) : Except String (List (Option CheckResult)) :=
  ebind (_is_daemon_running env) fun r3 =>
  ebind (_run_dkms_checks env) fun dkms =>
  ebind (secureBootComponent env) fun sb =>
  ebind (_is_openrazer_up_to_date env) fun r6 =>
  Except.ok
    ([some (_is_daemon_installed env), some (_is_pylib_installed env), some r3]
      ++ dkms.map some ++ sb
      ++ [some (_is_user_in_plugdev_group env),
          _is_sysfs_plugdev_permissions_ok env, r6])

/-- `troubleshoot`: `None` on a non-Linux host; otherwise the result
list, degraded to the formatted exception string if any check raises. -/
def troubleshoot (env : Env) : Report :=
  if env.sysname ≠ "Linux" then Report.notApplicable
  else
    match runChecks env with
    | Except.ok results => Report.results results
    | Except.error e => Report.error (get_exception_as_string e)

/-! Specification-side definitions (stated from the words of the spec,
for comparison with the source-derived definitions above). -/

/-- The decimal number `minor.patch` formed, in the words of the spec,
"as a single decimal number minor+\".\"+patch", read exactly (no
floating-point rounding).  This is the original claim's reading, kept
for its refutation. -/
def minorPatchValue (minor patch : String) : ℚ :=
  (digitsToNat minor.data : ℚ) + (digitsToNat patch.data : ℚ) / 10 ^ patch.length

/-- The original spec ordering: "newer iff remote major > local major,
OR remote minor.patch (as a single decimal number) > local minor.patch",
with the decimal numbers compared exactly. -/
def specVersionNewer (a0 a1 a2 b0 b1 b2 : String) : Prop :=
  digitsToNat a0.data > digitsToNat b0.data ∨
    minorPatchValue a1 a2 > minorPatchValue b1 b2

/-- The value a float denotes: `some` rational for a finite float,
`none` for positive infinity. -/
def PyFloat.val : PyFloat → Option ℚ
  | PyFloat.finite m e => some ((m : ℚ) * 2 ^ e)
  | PyFloat.inf => none

/-- `x > y` on float values, infinity greater than every finite value
and not greater than itself. -/
def ofloatGt : Option ℚ → Option ℚ → Prop
  | none, none => False
  | none, some _ => True
  | some _, none => False
  | some x, some y => y < x

/-- The binary64 value of the decimal number `minor.patch` — the number
the program actually compares, and the amended claim's reading. -/
def minorPatchFloat (minor patch : String) : PyFloat :=
  float64OfDec (4 * (minor.length + patch.length) + 8)
    ⟨digitsToNat minor.data * 10 ^ patch.length + digitsToNat patch.data, patch.length⟩

/-- The amended spec ordering: newer iff remote major > local major, OR
the binary64 value of remote minor.patch exceeds the binary64 value of
local minor.patch. -/
def specVersionNewerFloat (a0 a1 a2 b0 b1 b2 : String) : Prop :=
  digitsToNat a0.data > digitsToNat b0.data ∨
    ofloatGt (PyFloat.val (minorPatchFloat a1 a2)) (PyFloat.val (minorPatchFloat b1 b2))

/-- Is a report entry the secure-boot check? -/
def entryIsSecureBoot : Option CheckResult → Bool
  | some r => r.test_name == secureBootTestName
  | none => false

/-- Does a result list contain the secure-boot check? -/
def hasSecureBootEntry (rs : List (Option CheckResult)) : Bool :=
  rs.any entryIsSecureBoot

/-- The length of a report's result list (`none` when the report is the
sentinel or an error string). -/
def reportLen : Report → Option Nat
  | Report.results rs => some rs.length
  | _ => none

/-! Concrete environments used to instantiate the theorems. -/

/-- A healthy Linux environment: library present, daemon PID file
absent, EFI absent, no network response, no log file. -/
def baseEnv : Env :=
  { sysname := "Linux"
    release := "6.1.0"
    machine := "x86_64"
    whichDaemon := some "/usr/bin/openrazer-daemon"
    xdgRuntimeDir := some "/run/user/1000"
    uid := 1000
    pathExists := fun _ => false
    readFirstLine := fun _ => ""
    readLines := fun _ => []
    pylibPresent := true
    rclientVersion := "3.0.1"
    modprobeCode := 0
    lsmodOutput := "razerkbd 1234 0"
    secureBootGlob := []
    odOutput := fun _ => "   1   0   0   0   0   0   0   1"
    groupsOutput := "user adm plugdev"
    home := "/home/user"
    requestResult := none }

/-- `baseEnv` with the OpenRazer log file absent (it already is). -/
def envLogAbsent : Env := baseEnv

/-- `baseEnv` with the OpenRazer log file present and clean. -/
def envLogPresent : Env :=
  { baseEnv with
    pathExists := fun p => p == "/home/user/.local/share/openrazer/logs/razer.log"
    readLines := fun _ => ["daemon started\n"] }

/-- `baseEnv` with the client library absent. -/
def envNoLib : Env :=
  { baseEnv with pylibPresent := false }

/-- `baseEnv` with a daemon PID file whose first line is not an
integer. -/
def envBadPid : Env :=
  { baseEnv with
    pathExists := fun p => p == "/run/user/1000/openrazer-daemon.pid"
    readFirstLine := fun _ => "not-a-pid\n" }

/-- `baseEnv` on a non-Linux host. -/
def envDarwin : Env :=
  { baseEnv with sysname := "Darwin" }

/-- `baseEnv` with EFI present and a SecureBoot efivars file whose last
dumped byte is `1`. -/
def envEfiOn : Env :=
  { baseEnv with
    pathExists := fun p => p == "/sys/firmware/efi"
    secureBootGlob := ["/sys/firmware/efi/efivars/SecureBoot-8be4df61"] }

/-- `baseEnv` with EFI present but an empty SecureBoot glob. -/
def envEfiNoVar : Env :=
  { baseEnv with pathExists := fun p => p == "/sys/firmware/efi" }

/-- `baseEnv` with a malformed remote version response. -/
def envBadRemote : Env :=
  { baseEnv with requestResult := some (200, "3.0") }

/-- `baseEnv` with a well-formed remote version response. -/
def envGoodRemote : Env :=
  { baseEnv with requestResult := some (200, "3.0.2\n") }

/-- `envEfiOn` with an unparseable `od` dump. -/
def envEfiBadOd : Env :=
  { envEfiOn with odOutput := fun _ => "od: invalid argument" }

/-- `baseEnv` with a remote response of three dot-separated components
that are not numeric, so that the version comparison raises. -/
def envBadRemoteParse : Env :=
  { baseEnv with requestResult := some (200, "a.b.c") }

/-- Extract the payload of an `Except.ok`, with a fallback value.  Used
only to name concrete computed values inside witness statements. -/
def forceOk {α : Type} (dflt : α) : Except String α → α
  | Except.ok v => v
  | Except.error _ => dflt

/-- A placeholder check result for `forceOk`. -/
def dummyResult : CheckResult :=
  { test_name := "", suggestions := [], passed := none }

/-- The result list of a report, empty for the other constructors.
Used only to name concrete computed lists inside witness statements. -/
def resultsOf : Report → List (Option CheckResult)
  | Report.results rs => rs
  | _ => []

/-! Helper lemmas. -/

theorem ebind_ok {α β : Type} (v : α) (f : α → Except String β) :
    ebind (Except.ok v) f = f v := rfl

theorem ebind_error {α β : Type} (e : String) (f : α → Except String β) :
    ebind (Except.error e) f = Except.error e := rfl

theorem ebind_ok_inv {α β : Type} {x : Except String α} {f : α → Except String β} {y : β}
    (h : ebind x f = Except.ok y) : ∃ v, x = Except.ok v ∧ f v = Except.ok y := by
  cases x with
  | error e => exact absurd h (by simp [ebind])
  | ok v => exact ⟨v, rfl, h⟩

theorem digit_not_ws {c : Char} (h : c.isDigit = true) : c.isWhitespace = false := by
  rw [Char.isDigit, Bool.and_eq_true, decide_eq_true_eq, decide_eq_true_eq] at h
  obtain ⟨h1, h2⟩ := h
  rw [Char.isWhitespace]
  simp only [Bool.or_eq_false_iff, decide_eq_false_iff_not]
  refine ⟨⟨⟨?_, ?_⟩, ?_⟩, ?_⟩ <;>
    · rintro rfl
      revert h1 h2
      decide

theorem dropWhile_ws_of_all_digits {l : List Char} (h : l.all Char.isDigit = true) :
    l.dropWhile Char.isWhitespace = l := by
  cases l with
  | nil => rfl
  | cons c t =>
    rw [List.all_cons, Bool.and_eq_true] at h
    exact List.dropWhile_cons_of_neg (by rw [digit_not_ws h.1]; exact Bool.false_ne_true)

theorem pyStripList_of_all_digits {l : List Char} (h : l.all Char.isDigit = true) :
    pyStripList l = l := by
  unfold pyStripList
  rw [dropWhile_ws_of_all_digits h,
    dropWhile_ws_of_all_digits (by rw [List.all_reverse]; exact h),
    List.reverse_reverse]

theorem pyParseInt_digits (s : String) (h : isDigitStr s = true) :
    pyParseInt s = Except.ok (digitsToNat s.data : Int) := by
  have hall : s.data.all Char.isDigit = true := by
    rw [isDigitStr, isDigitList, Bool.and_eq_true] at h
    exact h.2
  unfold pyParseInt
  rw [pyStripList_of_all_digits hall, if_pos (show isDigitList s.data = true from h)]

theorem pyFloatCat_digits {ip fp : String} (h1 : isDigitStr ip = true) (h2 : isDigitStr fp = true) :
    pyFloatCat ip fp = Except.ok (minorPatchFloat ip fp) := by
  unfold pyFloatCat
  rw [h1, h2]
  rfl

theorem gtb_iff_val (x y : PyFloat) :
    PyFloat.gtb x y = true ↔ ofloatGt (PyFloat.val x) (PyFloat.val y) := by
  cases x with
  | inf =>
    cases y with
    | inf => simp [PyFloat.gtb, PyFloat.val, ofloatGt]
    | finite m e => simp [PyFloat.gtb, PyFloat.val, ofloatGt]
  | finite m1 e1 =>
    cases y with
    | inf => simp [PyFloat.gtb, PyFloat.val, ofloatGt]
    | finite m2 e2 =>
      simp only [PyFloat.gtb, PyFloat.val, ofloatGt, decide_eq_true_eq]
      have hkey : ∀ (m : Nat) (e : Int), min e1 e2 ≤ e →
          (m : ℚ) * 2 ^ e =
            ((m * 2 ^ Int.toNat (e - min e1 e2) : Nat) : ℚ) * 2 ^ min e1 e2 := by
        intro m e he
        have h1 : (Int.toNat (e - min e1 e2) : Int) = e - min e1 e2 :=
          Int.toNat_of_nonneg (sub_nonneg.mpr he)
        rw [Nat.cast_mul, Nat.cast_pow, Nat.cast_ofNat, mul_assoc,
          ← zpow_natCast (2 : ℚ) (Int.toNat (e - min e1 e2)), h1,
          ← zpow_add₀ (two_ne_zero) (e - min e1 e2) (min e1 e2), sub_add_cancel]
      rw [hkey m1 e1 (min_le_left _ _), hkey m2 e2 (min_le_right _ _),
        mul_lt_mul_right (zpow_pos (by norm_num) _)]
      exact_mod_cast Iff.rfl

theorem pyListGet_explicit0 (a b c : String) : pyListGet [a, b, c] 0 = Except.ok a := rfl

theorem pyListGet_explicit1 (a b c : String) : pyListGet [a, b, c] 1 = Except.ok b := rfl

theorem pyListGet_explicit2 (a b c : String) : pyListGet [a, b, c] 2 = Except.ok c := rfl

theorem daemon_running_name {env : Env} {r : CheckResult}
    (h : _is_daemon_running env = Except.ok r) : r.test_name = "Daemon is running" := by
  simp only [_is_daemon_running] at h
  obtain ⟨b, _, hr⟩ := ebind_ok_inv h
  cases hr
  rfl

theorem dkms_ok_inv {env : Env} {l : List CheckResult}
    (h : _run_dkms_checks env = Except.ok l) :
    env.pylibPresent = true ∧ l.length = 4 ∧
      ∀ r ∈ l, r.test_name ≠ secureBootTestName := by
  simp only [_run_dkms_checks] at h
  cases hp : env.pylibPresent with
  | false =>
    rw [hp] at h
    rw [if_neg (by simp)] at h
    exact absurd h (by simp [ebind])
  | true =>
    rw [hp] at h
    rw [if_pos rfl] at h
    rw [ebind_ok] at h
    cases h
    refine ⟨rfl, rfl, ?_⟩
    intro r hr
    simp only [List.mem_cons, List.not_mem_nil, or_false] at hr
    rcases hr with rfl | rfl | rfl | rfl <;> simp [secureBootTestName]

theorem secure_boot_name {env : Env} {r : CheckResult}
    (h : _is_secure_boot_enabled env = Except.ok r) : r.test_name = secureBootTestName := by
  simp only [_is_secure_boot_enabled] at h
  split at h
  · obtain ⟨st, _, hr⟩ := ebind_ok_inv h
    cases hr
    rfl
  · cases h
    rfl

theorem up_to_date_name {env : Env} {r : CheckResult}
    (h : _is_openrazer_up_to_date env = Except.ok (some r)) :
    r.test_name = "OpenRazer is the latest version" := by
  simp only [_is_openrazer_up_to_date] at h
  split at h
  · split at h
    · obtain ⟨b, _, hr⟩ := ebind_ok_inv h
      cases hr
      rfl
    · cases h
      rfl
  · exact absurd h (by simp)

theorem sysfs_name {env : Env} {r : CheckResult}
    (h : _is_sysfs_plugdev_permissions_ok env = some r) :
    r.test_name = "Check OpenRazer log for plugdev permission errors" := by
  simp only [_is_sysfs_plugdev_permissions_ok] at h
  split at h
  · cases h
    rfl
  · exact absurd h (by simp)

theorem secureBootComponent_ok_inv {env : Env} {sb : List (Option CheckResult)}
    (h : secureBootComponent env = Except.ok sb) :
    (env.pathExists "/sys/firmware/efi" = true ∧
      ∃ r, _is_secure_boot_enabled env = Except.ok r ∧ sb = [some r]) ∨
    (env.pathExists "/sys/firmware/efi" = false ∧ sb = []) := by
  simp only [secureBootComponent] at h
  cases hp : env.pathExists "/sys/firmware/efi" with
  | true =>
    rw [hp] at h
    rw [if_pos rfl] at h
    obtain ⟨r, hr, hh⟩ := ebind_ok_inv h
    cases hh
    exact Or.inl ⟨rfl, r, hr, rfl⟩
  | false =>
    rw [hp] at h
    rw [if_neg (by simp)] at h
    cases h
    exact Or.inr ⟨rfl, rfl⟩

theorem runChecks_ok_inv {env : Env} {rs : List (Option CheckResult)}
    (h : runChecks env = Except.ok rs) :
    ∃ r3 dkms sb r6,
      _is_daemon_running env = Except.ok r3 ∧
      _run_dkms_checks env = Except.ok dkms ∧
      secureBootComponent env = Except.ok sb ∧
      _is_openrazer_up_to_date env = Except.ok r6 ∧
      rs = [some (_is_daemon_installed env), some (_is_pylib_installed env), some r3]
        ++ dkms.map some ++ sb
        ++ [some (_is_user_in_plugdev_group env),
            _is_sysfs_plugdev_permissions_ok env, r6] := by
  simp only [runChecks] at h
  obtain ⟨r3, h3, h⟩ := ebind_ok_inv h
  obtain ⟨dkms, h4, h⟩ := ebind_ok_inv h
  obtain ⟨sb, h5, h⟩ := ebind_ok_inv h
  obtain ⟨r6, h6, h⟩ := ebind_ok_inv h
  injection h with h
  exact ⟨r3, dkms, sb, r6, h3, h4, h5, h6, h.symm⟩

theorem troubleshoot_results_inv {env : Env} {rs : List (Option CheckResult)}
    (h : troubleshoot env = Report.results rs) :
    env.sysname = "Linux" ∧ runChecks env = Except.ok rs := by
  simp only [troubleshoot] at h
  split at h
  · exact absurd h (by simp)
  · next hlin =>
    rw [not_not] at hlin
    refine ⟨hlin, ?_⟩
    cases hrc : runChecks env with
    | ok v =>
      rw [hrc] at h
      cases h
      rfl
    | error e =>
      rw [hrc] at h
      exact absurd h (by simp)

theorem troubleshoot_of_runChecks_error {env : Env} {e : String}
    (hlin : env.sysname = "Linux") (h : runChecks env = Except.error e) :
    troubleshoot env = Report.error (get_exception_as_string e) := by
  simp only [troubleshoot, hlin]
  rw [if_neg (by simp), h]

theorem entry_some_ne {r : CheckResult} (h : r.test_name ≠ secureBootTestName) :
    entryIsSecureBoot (some r) = false := by
  simp only [entryIsSecureBoot]
  exact beq_eq_false_iff_ne.mpr h

theorem ite_ite_true_false_iff (A B : Prop) [Decidable A] [Decidable B] (A' B' : Prop)
    (hA : A ↔ A') (hB : B ↔ B') :
    ((if A then true else if B then true else false) = true ↔ (B' ∨ A')) := by
  by_cases h1 : A
  · rw [if_pos h1]
    exact iff_of_true rfl (Or.inr (hA.mp h1))
  · rw [if_neg h1]
    by_cases h2 : B
    · rw [if_pos h2]
      exact iff_of_true rfl (Or.inl (hB.mp h2))
    · rw [if_neg h2]
      exact iff_of_false Bool.false_ne_true
        (not_or.mpr ⟨fun hc => h2 (hB.mpr hc), fun hc => h1 (hA.mpr hc)⟩)

/-! Claim theorems. -/

/-- Claim C1 (code bug): of the three version-comparison test vectors,
the code satisfies the first two, but `_is_version_newer_then` applied
to `("2.9.9", "3.0.0")` returns `true`, not the stated `false`: the
`minor.patch` comparison `9.9 > 0.0` sets the flag independently of the
major-version comparison. -/
theorem version_comparison_vectors :
    _is_version_newer_then "3.1.0" "3.0.9" = Except.ok true ∧
    _is_version_newer_then "3.0.1" "3.0.1" = Except.ok false ∧
    _is_version_newer_then "2.9.9" "3.0.0" = Except.ok true := by
  refine ⟨?_, ?_, ?_⟩ <;> decide

/-- Claim C4 (code bug): when the client library is not importable, the
DKMS check does not return four sub-results with the first two unknown;
constructing the second sub-result evaluates `dkms_version`, which was
never assigned, so the function raises `NameError`. -/
theorem dkms_raises_without_lib (env : Env) (h : env.pylibPresent = false) :
    _run_dkms_checks env = Except.error dkmsNameError := by
  simp only [_run_dkms_checks, h]
  rw [if_neg (by simp), ebind_error]

/-- Witness for `dkms_raises_without_lib`. -/
theorem dkms_raises_without_lib_witness :
    _run_dkms_checks envNoLib = Except.error dkmsNameError :=
  dkms_raises_without_lib envNoLib (by decide)

/-- Claim C8: on a non-Linux host the runner returns the not-applicable
sentinel; this holds for every environment with a non-Linux `sysname`,
whatever every other field is, so no check contributes anything. -/
theorem non_linux_returns_sentinel (env : Env) (h : env.sysname ≠ "Linux") :
    troubleshoot env = Report.notApplicable := by
  simp only [troubleshoot]
  rw [if_pos h]

/-- Witness for `non_linux_returns_sentinel`. -/
theorem non_linux_returns_sentinel_witness :
    troubleshoot envDarwin = Report.notApplicable :=
  non_linux_returns_sentinel envDarwin (by decide)

/-- Claim C9: whenever the daemon PID file does not exist, the
daemon-running check returns (rather than raising) a result whose
`passed` is `false`. -/
theorem daemon_running_missing_pid (env : Env)
    (h : env.pathExists (daemonPidFile env) = false) :
    ∃ r, _is_daemon_running env = Except.ok r ∧ r.passed = some false := by
  have hE : _is_daemon_running env = Except.ok
      { test_name := "Daemon is running",
        suggestions :=
          ["Start the daemon from the terminal. Run this command and look for errors:",
           "$ openrazer-daemon -Fv"],
        passed := some false } := by
    simp only [_is_daemon_running, h]
    rw [if_neg (by simp), ebind_ok]
  exact ⟨_, hE, rfl⟩

/-- Witness for `daemon_running_missing_pid`. -/
theorem daemon_running_missing_pid_witness :
    ∃ r, _is_daemon_running baseEnv = Except.ok r ∧ r.passed = some false :=
  daemon_running_missing_pid baseEnv (by decide)

/-- Claim C10: if the daemon PID file exists but its first line does
not parse as an integer, the daemon-running check raises, so the whole
run returns the formatted error string instead of a report. -/
theorem bad_pid_line_aborts_run (env : Env) (e : String)
    (hlin : env.sysname = "Linux")
    (hex : env.pathExists (daemonPidFile env) = true)
    (herr : pyParseInt (env.readFirstLine (daemonPidFile env)) = Except.error e) :
    _is_daemon_running env = Except.error e ∧
    troubleshoot env = Report.error (get_exception_as_string e) := by
  have hd : _is_daemon_running env = Except.error e := by
    simp only [_is_daemon_running, hex, herr]
    rw [if_pos trivial, ebind_error, ebind_error]
  refine ⟨hd, troubleshoot_of_runChecks_error hlin ?_⟩
  simp only [runChecks, hd]
  rw [ebind_error]

/-- Witness for `bad_pid_line_aborts_run`. -/
theorem bad_pid_line_aborts_run_witness :
    _is_daemon_running envBadPid =
      Except.error "ValueError: invalid literal for int: not-a-pid\n" ∧
    troubleshoot envBadPid =
      Report.error
        (get_exception_as_string "ValueError: invalid literal for int: not-a-pid\n") :=
  bad_pid_line_aborts_run envBadPid _ (by decide) (by decide) (by decide)

/-- Claim C2 counterexample: at `verA = "0.0.10000000000000000001"`,
`verB = "0.0.1"` — well-formed three-component versions — the exact
decimal number `0.10000000000000000001` exceeds `0.1`, yet the program
returns `false`: both decimals round to the same binary64 double, so
the float comparison does not fire.  The claimed equivalence with the
exact-decimal ordering therefore fails at this input. -/
theorem version_newer_exact_decimal_cex :
    _is_version_newer_then "0.0.10000000000000000001" "0.0.1" = Except.ok false ∧
    specVersionNewer "0" "0" "10000000000000000001" "0" "0" "1" := by
  constructor
  · decide
  · rw [specVersionNewer]
    right
    have h1 : digitsToNat ("10000000000000000001" : String).data = 10000000000000000001 := by
      decide
    have h2 : digitsToNat ("1" : String).data = 1 := by decide
    have h0 : digitsToNat ("0" : String).data = 0 := by decide
    have hl1 : ("10000000000000000001" : String).length = 20 := by decide
    have hl2 : ("1" : String).length = 1 := by decide
    rw [minorPatchValue, minorPatchValue, h1, h2, h0, hl1, hl2]
    norm_num

/-- Claim C2 (amended): for every pair of well-formed three-component
version strings, the comparison declares the first (remote) newer than
the second (local) iff remote major > local major, or the binary64
(Python float) value of remote minor.patch exceeds the binary64 value
of local minor.patch — the doubles the program actually compares, which
agree with the exact decimal ordering only within double precision. -/
theorem version_newer_matches_float_spec
    (verA verB a0 a1 a2 b0 b1 b2 : String)
    (hA : pySplit verA '.' = [a0, a1, a2]) (hB : pySplit verB '.' = [b0, b1, b2])
    (ha0 : isDigitStr a0 = true) (ha1 : isDigitStr a1 = true) (ha2 : isDigitStr a2 = true)
    (hb0 : isDigitStr b0 = true) (hb1 : isDigitStr b1 = true) (hb2 : isDigitStr b2 = true) :
    ∃ newer, _is_version_newer_then verA verB = Except.ok newer ∧
      (newer = true ↔ specVersionNewerFloat a0 a1 a2 b0 b1 b2) := by
  have hfun : _is_version_newer_then verA verB = Except.ok
      (if PyFloat.gtb (minorPatchFloat a1 a2) (minorPatchFloat b1 b2) = true then true
       else if (digitsToNat a0.data : Int) > (digitsToNat b0.data : Int) then true
       else false) := by
    simp only [_is_version_newer_then, hA, hB, pyListGet_explicit0, pyListGet_explicit1,
      pyListGet_explicit2, ebind_ok, pyParseInt_digits a0 ha0, pyParseInt_digits b0 hb0,
      pyFloatCat_digits ha1 ha2, pyFloatCat_digits hb1 hb2]
  refine ⟨_, hfun, ?_⟩
  rw [specVersionNewerFloat]
  exact ite_ite_true_false_iff _ _ _ _ (gtb_iff_val _ _) (by exact_mod_cast Iff.rfl)

/-- Witness for `version_newer_matches_float_spec`. -/
theorem version_newer_matches_float_spec_witness :
    ∃ newer, _is_version_newer_then "3.1.0" "3.0.9" = Except.ok newer ∧
      (newer = true ↔ specVersionNewerFloat "3" "1" "0" "3" "0" "9") :=
  version_newer_matches_float_spec "3.1.0" "3.0.9" "3" "1" "0" "3" "0" "9"
    (by decide) (by decide) (by decide) (by decide) (by decide) (by decide)
    (by decide) (by decide)

/-- Claim C5 counterexample: with the client library missing, the
up-to-date check yields Python `None` (no `CheckResult` at all) rather
than a `CheckResult` whose `passed` is unknown. -/
theorem up_to_date_missing_lib_cex :
    _is_openrazer_up_to_date envNoLib = Except.ok none := by decide

/-- Claim C5 (amended): the up-to-date check never raises on network
failure, malformed remote text, or a missing library; on network
failure or malformed remote text it returns a `CheckResult` with
unknown `passed`, while with the library missing it returns no
`CheckResult` at all. -/
theorem up_to_date_unknown_cases (env : Env) :
    (env.pylibPresent = false → _is_openrazer_up_to_date env = Except.ok none) ∧
    (env.pylibPresent = true → env.requestResult = none →
      ∃ r, _is_openrazer_up_to_date env = Except.ok (some r) ∧ r.passed = none) ∧
    (env.pylibPresent = true → ∀ code text, env.requestResult = some (code, text) →
      (code ≠ 200 ∨ (pySplit (pyStripStr text) '.').length ≠ 3) →
      ∃ r, _is_openrazer_up_to_date env = Except.ok (some r) ∧ r.passed = none) := by
  refine ⟨?_, ?_, ?_⟩
  · intro h
    simp only [_is_openrazer_up_to_date, h]
    rw [if_neg (by simp)]
  · intro hp hreq
    simp only [_is_openrazer_up_to_date, hp, hreq]
    rw [if_pos trivial]
    exact ⟨_, rfl, rfl⟩
  · intro hp code text hreq hbad
    have hc : (code == 200 && ((pySplit (pyStripStr text) '.').length == 3)) = false := by
      rcases hbad with hb | hb
      · rw [beq_eq_false_iff_ne.mpr hb, Bool.false_and]
      · rw [beq_eq_false_iff_ne.mpr hb, Bool.and_false]
    simp only [_is_openrazer_up_to_date, hp, hreq, hc]
    rw [if_pos trivial, if_neg (by simp)]
    exact ⟨_, rfl, rfl⟩

/-- Witness for `up_to_date_unknown_cases`. -/
theorem up_to_date_unknown_cases_witness :
    (∃ r, _is_openrazer_up_to_date baseEnv = Except.ok (some r) ∧ r.passed = none) ∧
    (∃ r, _is_openrazer_up_to_date envBadRemote = Except.ok (some r) ∧ r.passed = none) ∧
    _is_openrazer_up_to_date envNoLib = Except.ok none :=
  ⟨(up_to_date_unknown_cases baseEnv).2.1 rfl rfl,
   (up_to_date_unknown_cases envBadRemote).2.2 rfl 200 "3.0" rfl (Or.inr (by decide)),
   (up_to_date_unknown_cases envNoLib).1 rfl⟩

/-- Claim C6: any check raising during the run degrades the whole
report to the single formatted error string; the runner returns only
that string, so no partial results reach the caller.  One conjunct per
fallible check, each stating that an exception there (with the earlier
checks succeeding) yields the error-string report. -/
theorem check_error_degrades_report (env : Env) (hlin : env.sysname = "Linux") :
    (∀ e, _is_daemon_running env = Except.error e →
      troubleshoot env = Report.error (get_exception_as_string e)) ∧
    (∀ r3 e, _is_daemon_running env = Except.ok r3 →
      _run_dkms_checks env = Except.error e →
      troubleshoot env = Report.error (get_exception_as_string e)) ∧
    (∀ r3 dkms e, _is_daemon_running env = Except.ok r3 →
      _run_dkms_checks env = Except.ok dkms →
      env.pathExists "/sys/firmware/efi" = true →
      _is_secure_boot_enabled env = Except.error e →
      troubleshoot env = Report.error (get_exception_as_string e)) ∧
    (∀ r3 dkms sb e, _is_daemon_running env = Except.ok r3 →
      _run_dkms_checks env = Except.ok dkms →
      secureBootComponent env = Except.ok sb →
      _is_openrazer_up_to_date env = Except.error e →
      troubleshoot env = Report.error (get_exception_as_string e)) := by
  refine ⟨?_, ?_, ?_, ?_⟩
  · intro e h
    exact troubleshoot_of_runChecks_error hlin
      (by simp only [runChecks, h, ebind_error])
  · intro r3 e h3 h
    exact troubleshoot_of_runChecks_error hlin
      (by simp only [runChecks, h3, h, ebind_ok, ebind_error])
  · intro r3 dkms e h3 h4 hefi h
    have hsb : secureBootComponent env = Except.error e := by
      simp only [secureBootComponent, hefi, h]
      rw [if_pos trivial, ebind_error]
    exact troubleshoot_of_runChecks_error hlin
      (by simp only [runChecks, h3, h4, hsb, ebind_ok, ebind_error])
  · intro r3 dkms sb e h3 h4 h5 h
    exact troubleshoot_of_runChecks_error hlin
      (by simp only [runChecks, h3, h4, h5, h, ebind_ok, ebind_error])

/-- Witness for `check_error_degrades_report`, exercising all four
conjuncts on concrete environments. -/
theorem check_error_degrades_report_witness :
    troubleshoot envBadPid =
      Report.error
        (get_exception_as_string "ValueError: invalid literal for int: not-a-pid\n") ∧
    troubleshoot envNoLib = Report.error (get_exception_as_string dkmsNameError) ∧
    troubleshoot envEfiBadOd =
      Report.error
        (get_exception_as_string "ValueError: invalid literal for int: argument") ∧
    troubleshoot envBadRemoteParse =
      Report.error (get_exception_as_string "ValueError: invalid literal for int: a") :=
  ⟨(check_error_degrades_report envBadPid rfl).1 _ (by decide),
   (check_error_degrades_report envNoLib rfl).2.1
     (forceOk dummyResult (_is_daemon_running envNoLib)) _ (by decide) (by decide),
   (check_error_degrades_report envEfiBadOd rfl).2.2.1
     (forceOk dummyResult (_is_daemon_running envEfiBadOd))
     (forceOk [] (_run_dkms_checks envEfiBadOd)) _
     (by decide) (by decide) (by decide) (by decide),
   (check_error_degrades_report envBadRemoteParse rfl).2.2.2
     (forceOk dummyResult (_is_daemon_running envBadRemoteParse))
     (forceOk [] (_run_dkms_checks envBadRemoteParse))
     (forceOk [] (secureBootComponent envBadRemoteParse)) _
     (by decide) (by decide) (by decide) (by decide)⟩

/-- Claim C3 counterexample: with the permission-log file absent the
report is not one element shorter than with it present — both reports
have exactly ten entries, because the runner appends the check's
Python `None` return to the list as a null entry. -/
theorem log_absent_report_length_cex :
    reportLen (troubleshoot envLogAbsent) = some 10 ∧
    reportLen (troubleshoot envLogPresent) = some 10 := by
  refine ⟨?_, ?_⟩ <;> decide

/-- Claim C3 (amended): when the permission-log file does not exist the
check function itself returns no result, but the runner still appends
that `None`: the report keeps the same length as when the file exists
(10 entries, 11 on EFI systems), carrying a null entry — which is not a
`CheckResult`, so in particular no false/unknown `CheckResult` is
contributed for the check. -/
theorem log_absent_null_entry (env : Env) (rs : List (Option CheckResult))
    (h : troubleshoot env = Report.results rs) :
    rs.length = (if env.pathExists "/sys/firmware/efi" = true then 11 else 10) ∧
    (env.pathExists (razerLogPath env) = false →
      _is_sysfs_plugdev_permissions_ok env = none ∧ none ∈ rs) := by
  obtain ⟨hlin, hrc⟩ := troubleshoot_results_inv h
  obtain ⟨r3, dkms, sb, r6, h3, h4, h5, h6, hrs⟩ := runChecks_ok_inv hrc
  obtain ⟨_, hlen4, _⟩ := dkms_ok_inv h4
  have hnone : env.pathExists (razerLogPath env) = false →
      _is_sysfs_plugdev_permissions_ok env = none := by
    intro habs
    simp only [_is_sysfs_plugdev_permissions_ok, habs]
    rw [if_neg (by simp)]
  constructor
  · rcases secureBootComponent_ok_inv h5 with ⟨hefi, r, _, hsb⟩ | ⟨hefi, hsb⟩
    · subst hrs hsb
      rw [if_pos hefi]
      simp [hlen4]
    · subst hrs hsb
      rw [if_neg (by rw [hefi]; exact Bool.false_ne_true)]
      simp [hlen4]
  · intro habs
    refine ⟨hnone habs, ?_⟩
    subst hrs
    simp [hnone habs]

/-- Witness for `log_absent_null_entry`. -/
theorem log_absent_null_entry_witness :
    (resultsOf (troubleshoot envLogAbsent)).length =
      (if envLogAbsent.pathExists "/sys/firmware/efi" = true then 11 else 10) ∧
    _is_sysfs_plugdev_permissions_ok envLogAbsent = none ∧
    none ∈ resultsOf (troubleshoot envLogAbsent) := by
  have h : troubleshoot envLogAbsent =
      Report.results (resultsOf (troubleshoot envLogAbsent)) := by decide
  exact ⟨(log_absent_null_entry envLogAbsent _ h).1,
    (log_absent_null_entry envLogAbsent _ h).2 (by decide)⟩

/-- Claim C7: the secure-boot check appears in a produced report iff
the EFI firmware path exists; when it runs with a nonempty SecureBoot
glob and the decoded status byte parses as `n`, its `passed` is true
iff `n = 0`; with an empty glob its `passed` is unknown. -/
theorem secure_boot_check_spec (env : Env) (rs : List (Option CheckResult))
    (h : troubleshoot env = Report.results rs) :
    hasSecureBootEntry rs = env.pathExists "/sys/firmware/efi" ∧
    (env.secureBootGlob.length > 0 →
      ∀ n, pyParseInt (sbStatusString env) = Except.ok n →
        ∃ r, _is_secure_boot_enabled env = Except.ok r ∧
          (r.passed = some true ↔ n = 0)) ∧
    (env.secureBootGlob.length = 0 →
      ∃ r, _is_secure_boot_enabled env = Except.ok r ∧ r.passed = none) := by
  obtain ⟨hlin, hrc⟩ := troubleshoot_results_inv h
  obtain ⟨r3, dkms, sb, r6, h3, h4, h5, h6, hrs⟩ := runChecks_ok_inv hrc
  obtain ⟨_, _, hnames⟩ := dkms_ok_inv h4
  refine ⟨?_, ?_, ?_⟩
  · subst hrs
    simp only [hasSecureBootEntry, List.any_append]
    have e1 : [some (_is_daemon_installed env), some (_is_pylib_installed env),
        some r3].any entryIsSecureBoot = false := by
      simp only [List.any_cons, List.any_nil, Bool.or_false]
      rw [entry_some_ne (by simp [_is_daemon_installed, secureBootTestName]),
        entry_some_ne (by simp [_is_pylib_installed, secureBootTestName]),
        entry_some_ne (by rw [daemon_running_name h3]; simp [secureBootTestName])]
      rfl
    have e2 : (dkms.map some).any entryIsSecureBoot = false := by
      rw [List.any_eq_false]
      intro x hx
      obtain ⟨r, hr, rfl⟩ := List.mem_map.mp hx
      simp [entry_some_ne (hnames r hr)]
    have e4 : [some (_is_user_in_plugdev_group env),
        _is_sysfs_plugdev_permissions_ok env, r6].any entryIsSecureBoot = false := by
      simp only [List.any_cons, List.any_nil, Bool.or_false]
      rw [entry_some_ne (by simp [_is_user_in_plugdev_group, secureBootTestName])]
      have eperm : entryIsSecureBoot (_is_sysfs_plugdev_permissions_ok env) = false := by
        cases hperm : _is_sysfs_plugdev_permissions_ok env with
        | none => rfl
        | some r =>
          exact entry_some_ne (by rw [sysfs_name hperm]; simp [secureBootTestName])
      have eupd : entryIsSecureBoot r6 = false := by
        cases hupd : r6 with
        | none => rfl
        | some r =>
          refine entry_some_ne ?_
          rw [up_to_date_name (by rw [← hupd]; exact h6)]
          simp [secureBootTestName]
      rw [eperm, eupd]
      rfl
    rw [e1, e2, e4]
    simp only [Bool.false_or, Bool.or_false]
    rcases secureBootComponent_ok_inv h5 with ⟨hefi, r, hr, hsb⟩ | ⟨hefi, hsb⟩
    · subst hsb
      rw [hefi]
      simp only [List.any_cons, List.any_nil, Bool.or_false, entryIsSecureBoot]
      rw [secure_boot_name hr]
      exact beq_self_eq_true secureBootTestName
    · subst hsb
      rw [hefi]
      rfl
  · intro hlen n hn
    simp only [_is_secure_boot_enabled]
    rw [if_pos hlen, hn, ebind_ok]
    refine ⟨_, rfl, ?_⟩
    simp
  · intro hlen
    simp only [_is_secure_boot_enabled]
    rw [if_neg (by simp [hlen])]
    exact ⟨_, rfl, rfl⟩

/-- Witness for `secure_boot_check_spec`, on an EFI environment whose
SecureBoot status byte is 1 and on a non-EFI environment with an empty
glob. -/
theorem secure_boot_check_spec_witness :
    hasSecureBootEntry (resultsOf (troubleshoot envEfiOn)) =
      envEfiOn.pathExists "/sys/firmware/efi" ∧
    (∃ r, _is_secure_boot_enabled envEfiOn = Except.ok r ∧
      (r.passed = some true ↔ (1 : Int) = 0)) ∧
    (∃ r, _is_secure_boot_enabled baseEnv = Except.ok r ∧ r.passed = none) := by
  have h : troubleshoot envEfiOn =
      Report.results (resultsOf (troubleshoot envEfiOn)) := by decide
  have h2 : troubleshoot baseEnv =
      Report.results (resultsOf (troubleshoot baseEnv)) := by decide
  exact ⟨(secure_boot_check_spec envEfiOn _ h).1,
    (secure_boot_check_spec envEfiOn _ h).2.1 (by decide) 1 (by decide),
    (secure_boot_check_spec baseEnv _ h2).2.2 (by decide)⟩

end Polychromatic
